import Mathlib

/-!
Verification of the obs-rave-overlay core (event bus, beat engine, color
extractor, theme engine) against its natural-language specification.

The JavaScript sources are shallowly embedded: each JS function becomes a
Lean function over explicit state, JS numbers appearing in the relevant
code paths are modelled as `Nat`/`Int`/`Rat` (all values involved are
integers or exact rationals; `Math.sqrt` only ever feeds comparisons, so
distances are compared via their squares), and JS reference mutation is
made explicit by returning updated state.
-/

set_option maxRecDepth 4000

namespace RaveOverlay

/-! ### Decimal rendering of natural numbers

The event bus builds its deduplication key with a JS template literal
joining the message type and the message timestamp with a hyphen; the
timestamp is an integer number of milliseconds, rendered in decimal.  We
model that rendering with Nat.repr and prove it injective, which is what
the dedup argument needs. -/

/-- Numeric value of a decimal digit character (junk value 9 elsewhere;
only applied to characters produced by `Nat.digitChar` for digits < 10). -/
def digitVal (c : Char) : Nat :=
  if c = '0' then 0 else if c = '1' then 1 else if c = '2' then 2
  else if c = '3' then 3 else if c = '4' then 4 else if c = '5' then 5
  else if c = '6' then 6 else if c = '7' then 7 else if c = '8' then 8
  else 9

/-- Decode a big-endian list of decimal digit characters. -/
def decNum (l : List Char) : Nat :=
  l.foldl (fun a c => 10 * a + digitVal c) 0

lemma digitVal_digitChar : ∀ d < 10, digitVal (Nat.digitChar d) = d := by
  decide

lemma toDigitsCore_append (fuel : Nat) :
    ∀ (n : Nat) (ds : List Char),
      Nat.toDigitsCore 10 fuel n ds = Nat.toDigitsCore 10 fuel n [] ++ ds := by
  induction fuel with
  | zero => intro n ds; simp [Nat.toDigitsCore]
  | succ fuel ih =>
    intro n ds
    simp only [Nat.toDigitsCore]
    by_cases h : n / 10 = 0
    · simp [h]
    · simp only [h, if_false]
      rw [ih (n / 10) (Nat.digitChar (n % 10) :: ds),
          ih (n / 10) [Nat.digitChar (n % 10)]]
      simp

lemma decNum_toDigitsCore :
    ∀ (n fuel : Nat), n < fuel → decNum (Nat.toDigitsCore 10 fuel n []) = n := by
  intro n
  induction n using Nat.strong_induction_on with
  | _ n ih =>
    intro fuel hfuel
    match fuel, hfuel with
    | fuel + 1, hfuel =>
      simp only [Nat.toDigitsCore]
      by_cases h : n / 10 = 0
      · have hn : n < 10 := by omega
        simp only [h, if_true, decNum, List.foldl]
        rw [digitVal_digitChar (n % 10) (Nat.mod_lt n (by omega))]
        omega
      · have hn0 : 0 < n := by
          by_contra hc
          have : n = 0 := by omega
          simp [this] at h
        have hdiv_lt : n / 10 < n := Nat.div_lt_self hn0 (by omega)
        simp only [h, if_false]
        rw [toDigitsCore_append fuel (n / 10) [Nat.digitChar (n % 10)]]
        have : decNum (Nat.toDigitsCore 10 fuel (n / 10) [] ++ [Nat.digitChar (n % 10)])
            = 10 * decNum (Nat.toDigitsCore 10 fuel (n / 10) []) + digitVal (Nat.digitChar (n % 10)) := by
          simp [decNum, List.foldl_append]
        rw [this, ih (n / 10) hdiv_lt fuel (by omega),
            digitVal_digitChar (n % 10) (Nat.mod_lt n (by omega))]
        omega

lemma decNum_repr (n : Nat) : decNum (Nat.repr n).data = n := by
  have : (Nat.repr n).data = Nat.toDigitsCore 10 (n + 1) n [] := by
    simp [Nat.repr, Nat.toDigits, List.asString]
  rw [this]
  exact decNum_toDigitsCore n (n + 1) (Nat.lt_succ_self n)

lemma natRepr_injective {a b : Nat} (h : Nat.repr a = Nat.repr b) : a = b := by
  have := congrArg (fun s => decNum s.data) h
  simpa [decNum_repr] using this

/-! ### Event Bus (src/shared/lib/event-bus.js)

State of one EventBus instance.  Handlers (JS function objects, compared by
identity) are modelled by natural-number ids.  The JS Map of Sets of
listeners is modelled as a function from event type to the insertion-ordered
list of handler ids; a JS Set never holds duplicates, which the `setAdd`
insert below reproduces.  `messageHistory` (keys currently inside the dedup
window, i.e. inserted and whose delayed cleanup has not yet fired) is the
list `history`. -/

structure Message where
  type : String
  timestamp : Nat
  data : Nat
deriving DecidableEq, Repr

structure BusState where
  history : List String
  listeners : String → List Nat

/-- JS Set.add: append unless already present (Sets iterate in insertion
order and ignore re-insertion of an existing element). -/
def setAdd (l : List Nat) (h : Nat) : List Nat :=
  if h ∈ l then l else l ++ [h]

/-- EventBus.on for a single event type (the source wraps a non-array
argument into a one-element array and folds over it; claims only need the
single-type form, `onTypes` below is the array form). -/
def onOne (t : String) (h : Nat) (st : BusState) : BusState :=
  { st with listeners := Function.update st.listeners t (setAdd (st.listeners t) h) }

/-- EventBus.on with a list of types: types.forEach(add). -/
def onTypes (ts : List String) (h : Nat) (st : BusState) : BusState :=
  ts.foldl (fun s t => onOne t h s) st

/-- The dedup key: JS template literal type-timestamp, with the integer
timestamp rendered in decimal. -/
def messageKey (m : Message) : String :=
  m.type ++ "-" ++ Nat.repr m.timestamp

/-- EventBus.handleMessage.  Returns the updated state and the sequence of
handler invocations performed (type-specific listeners first, then wildcard
listeners).  A `none` message models a falsy event payload; an empty type
string is falsy in JS, so both hit the initial guard.  The delayed
history cleanup (setTimeout) is modelled separately by `expireKey`. -/
def handleMessage (st : BusState) (msg : Option Message) : BusState × List Nat :=
  match msg with
  | none => (st, [])
  | some m =>
    if m.type = "" then (st, [])
    else
      let key := messageKey m
      if key ∈ st.history then (st, [])
      else
        let st1 : BusState := { st with history := key :: st.history }
        (st1, st.listeners m.type ++ st.listeners "*")

/-- The delayed cleanup scheduled at insertion time: removes one key from
the history once the dedup window has elapsed. -/
def expireKey (st : BusState) (key : String) : BusState :=
  { st with history := st.history.erase key }

/-- EventBus.off for a single event type: Set.delete. -/
def offOne (t : String) (h : Nat) (st : BusState) : BusState :=
  { st with listeners := Function.update st.listeners t ((st.listeners t).erase h) }

lemma messageKey_inj_timestamp {m1 m2 : Message} (ht : m1.type = m2.type)
    (hk : messageKey m1 = messageKey m2) : m1.timestamp = m2.timestamp := by
  apply natRepr_injective
  have hdata := congrArg String.data hk
  simp only [messageKey, ht, String.data_append] at hdata
  exact congrArg String.mk (List.append_cancel_left hdata)

lemma handleMessage_fresh (st : BusState) (m : Message) (hne : m.type ≠ "")
    (hfresh : messageKey m ∉ st.history) :
    handleMessage st (some m) =
      ({ st with history := messageKey m :: st.history },
        st.listeners m.type ++ st.listeners "*") := by
  simp [handleMessage, hne, hfresh]

lemma handleMessage_dup (st : BusState) (m : Message) (hne : m.type ≠ "")
    (hdup : messageKey m ∈ st.history) :
    handleMessage st (some m) = (st, []) := by
  simp [handleMessage, hne, hdup]

/-! ### Beat Engine (src/shared/lib/beat-engine.js)

The engine owns a BPM value, a beat interval in milliseconds, a counter and
a repeating timer.  Emission via the event bus is observed through the
`emitted` log (ticks in emission order).  JS numbers here are exact
rationals; `60000 / bpm` is exact rational division.  `none` models JS
null/undefined. -/

structure AudioFeatures where
  energy : Rat
  valence : Rat
  danceability : Rat
deriving DecidableEq, Repr

structure Tick where
  beatCount : Nat
  bpm : Option Rat
  beatInterval : Option Rat
  timestamp : Nat
deriving DecidableEq, Repr

structure BeatState where
  bpm : Option Rat
  beatInterval : Option Rat
  beatTimerId : Bool
  beatCount : Nat
  audioFeatures : Option AudioFeatures
  isRunning : Bool
  emitted : List Tick
deriving DecidableEq, Repr

/-- State of a freshly constructed BeatEngine. -/
def BeatEngine.init : BeatState :=
  { bpm := none, beatInterval := none, beatTimerId := false, beatCount := 0,
    audioFeatures := none, isRunning := false, emitted := [] }

/-- JS truthiness of a nullable number (NaN does not arise in this model). -/
def jsTruthyQ (x : Option Rat) : Bool :=
  match x with
  | none => false
  | some q => decide (q ≠ 0)

/-- BeatEngine.emitBeat: increment the counter, then publish a tick carrying
the incremented counter. -/
def emitBeat (st : BeatState) (now : Nat) : BeatState :=
  let st1 : BeatState := { st with beatCount := st.beatCount + 1 }
  { st1 with
    emitted := st1.emitted ++
      [{ beatCount := st1.beatCount, bpm := st1.bpm,
         beatInterval := st1.beatInterval, timestamp := now }] }

/-- BeatEngine.startBeat: guarded on a truthy bpm and on not already
running; zeroes the counter, emits one immediate beat, then registers the
repeating timer. -/
def startBeat (st : BeatState) (now : Nat) : BeatState :=
  if ¬ jsTruthyQ st.bpm then st
  else if st.isRunning then st
  else
    let st1 : BeatState := { st with isRunning := true, beatCount := 0 }
    let st2 := emitBeat st1 now
    { st2 with beatTimerId := true }

/-- BeatEngine.stopBeat: cancel the timer if present, clear the running flag
and the counter. -/
def stopBeat (st : BeatState) : BeatState :=
  let st1 : BeatState := if st.beatTimerId then { st with beatTimerId := false } else st
  { st1 with isRunning := false, beatCount := 0 }

/-- One firing of the registered interval timer. -/
def timerFire (st : BeatState) (now : Nat) : BeatState :=
  if st.beatTimerId then emitBeat st now else st

/-- The validation block at the top of BeatEngine.setBPM: a falsy (absent
or zero), non-positive or greater-than-300 argument is replaced by the
default 120. -/
def coerceBPM (bpm : Option Rat) : Rat :=
  match bpm with
  | none => 120
  | some x => if x = 0 ∨ x ≤ 0 ∨ 300 < x then 120 else x

/-- BeatEngine.setBPM: validate/coerce the argument, store bpm, features and
the interval, then restart beat timing. -/
def setBPM (st : BeatState) (bpm : Option Rat) (f : AudioFeatures) (now : Nat) : BeatState :=
  let b := coerceBPM bpm
  let st1 : BeatState :=
    { st with bpm := some b, audioFeatures := some f, beatInterval := some (60000 / b) }
  startBeat (stopBeat st1) now

/-- An invalid argument to setBPM: falsy (absent or zero), non-positive, or
greater than 300. -/
def invalidBPM (bpm : Option Rat) : Prop :=
  bpm = none ∨ ∃ x, bpm = some x ∧ (x ≤ 0 ∨ 300 < x)

lemma coerceBPM_pos (bpm : Option Rat) : 0 < coerceBPM bpm := by
  match bpm with
  | none => norm_num [coerceBPM]
  | some x =>
    simp only [coerceBPM]
    by_cases hx : x = 0 ∨ x ≤ 0 ∨ 300 < x
    · simp [hx]
    · rw [if_neg hx]
      push_neg at hx
      exact hx.2.1

/-- The effective bpm stored by setBPM is always positive, so the startBeat
guard on a truthy bpm always passes and a call to setBPM always restarts the
counter and emits one immediate tick. -/
lemma setBPM_unfold (st : BeatState) (bpm : Option Rat) (f : AudioFeatures) (now : Nat) :
    setBPM st bpm f now =
      { st with
        bpm := some (coerceBPM bpm), audioFeatures := some f,
        beatInterval := some (60000 / coerceBPM bpm),
        beatTimerId := true, isRunning := true, beatCount := 1,
        emitted := st.emitted ++
          [{ beatCount := 1, bpm := some (coerceBPM bpm),
             beatInterval := some (60000 / coerceBPM bpm),
             timestamp := now }] } := by
  have hb := coerceBPM_pos bpm
  have htr : jsTruthyQ (some (coerceBPM bpm)) = true := by
    simp [jsTruthyQ]
    exact ne_of_gt hb
  simp only [setBPM, stopBeat, startBeat, emitBeat]
  by_cases htimer : st.beatTimerId <;> simp [htimer, htr]

/-! ### Color Extractor (src/shared/lib/color-extractor.js)

The image environment is made explicit: loading either fails
(`img.onerror`), or delivers a canvas whose pixel read either throws (any
exception inside the onload try block, e.g. a getImageData security error)
or yields the RGBA pixels of the scaled canvas.  `colorDistance` is
`Math.sqrt` of a sum of integer squares and is only ever compared (to
another distance or to the threshold 5), so we compare squared distances,
which is equivalent since square root is strictly monotone on nonnegatives.
JS double arithmetic on these pixel-scale integers and ratios is exact
relative to every comparison performed, so `Rat` models it faithfully. -/

structure Color where
  r : Nat
  g : Nat
  b : Nat
deriving DecidableEq, Repr

structure Pixel where
  r : Nat
  g : Nat
  b : Nat
  a : Nat
deriving DecidableEq, Repr

structure Extracted where
  dominant : Color
  palette : List Color
deriving DecidableEq, Repr

inductive ImageLoad where
  | loadError : ImageLoad
  | loaded : Except String (List Pixel) → ImageLoad
deriving Repr

/-- Square of colorDistance (the Euclidean RGB distance). -/
def colorDistSq (c1 c2 : Color) : Int :=
  ((c1.r : Int) - c2.r) ^ 2 + ((c1.g : Int) - c2.g) ^ 2 + ((c1.b : Int) - c2.b) ^ 2

/-- calculateVibrancy: saturation times normalized brightness. -/
def calculateVibrancy (c : Color) : Rat :=
  let mx : Nat := max c.r (max c.g c.b)
  let mn : Nat := min c.r (min c.g c.b)
  let saturation : Rat := if mx = 0 then 0 else ((mx : Rat) - (mn : Rat)) / (mx : Rat)
  let brightness : Rat := ((c.r + c.g + c.b : Nat) : Rat) / (3 * 255)
  saturation * brightness

/-- The vibrant-pixel band of the sampling loop: opaque enough, brightness
strictly between 30 and 225, saturation above 0.2. -/
def isVibrantPixel (p : Pixel) : Bool :=
  if p.a < 128 then false
  else
    let brightness : Rat := ((p.r + p.g + p.b : Nat) : Rat) / 3
    let mx : Nat := max p.r (max p.g p.b)
    let mn : Nat := min p.r (min p.g p.b)
    let saturation : Rat := if mx = 0 then 0 else ((mx : Rat) - (mn : Rat)) / (mx : Rat)
    decide (30 < brightness ∧ brightness < 225 ∧ (1 / 5 : Rat) < saturation)

/-- The forEach argmin in the assignment step: minDist starts at Infinity
(modelled by `none`), strict less-than updates, first index wins ties. -/
def closestCentroid (c : Color) (centroids : List Color) : Nat :=
  let step := fun (acc : Option Int × Nat × Nat) cent =>
    let d := colorDistSq c cent
    match acc.1 with
    | none => (some d, acc.2.2, acc.2.2 + 1)
    | some m =>
      if d < m then (some d, acc.2.2, acc.2.2 + 1) else (some m, acc.2.1, acc.2.2 + 1)
  (centroids.foldl step (none, 0, 0)).2.1

/-- Cluster i collects, in input order, the colors whose nearest centroid
has index i (clusters[closestCentroid].push(color)). -/
def assignClusters (colors centroids : List Color) (k : Nat) : List (List Color) :=
  (List.range k).map (fun i => colors.filter (fun c => closestCentroid c centroids == i))

/-- JS Math.round(num / den) for natural num and positive den: floor of
num/den + 1/2 (Math.round rounds half toward positive infinity). -/
def jsRoundDiv (num den : Nat) : Nat :=
  (2 * num + den) / (2 * den)

/-- The centroid update: channel-wise rounded mean of the cluster, falling
back to the first of the previous centroids for an empty cluster. -/
def clusterMean (fallback : Color) (cluster : List Color) : Color :=
  if cluster.length = 0 then fallback
  else
    { r := jsRoundDiv (cluster.map Color.r).sum cluster.length,
      g := jsRoundDiv (cluster.map Color.g).sum cluster.length,
      b := jsRoundDiv (cluster.map Color.b).sum cluster.length }

/-- The iteration loop of kMeansClustering, with the remaining iteration
count as fuel: assign, recompute means, stop early once every centroid
moved less than distance 5 (squared: 25). -/
def kMeansIter (colors : List Color) (k : Nat) : Nat → List Color → List Color
  | 0, centroids => centroids
  | fuel + 1, centroids =>
    let clusters := assignClusters colors centroids k
    let newCentroids := clusters.map (clusterMean (centroids.headD ⟨0, 0, 0⟩))
    let converged := (newCentroids.zip centroids).all (fun p => colorDistSq p.1 p.2 < 25)
    if converged then newCentroids else kMeansIter colors k fuel newCentroids

/-- kMeansClustering: lists of at most k colors are returned unchanged;
otherwise seed k centroids by evenly spaced sampling and iterate.  (The
source is only ever invoked with k at least 1; with k = 0 and a nonempty
list the JS code would throw on indexing an undefined cluster.) -/
def kMeansClustering (colors : List Color) (k maxIterations : Nat) : List Color :=
  if colors.length ≤ k then colors
  else
    let step := colors.length / k
    let centroids := (List.range k).map (fun i => colors.getD (i * step) ⟨0, 0, 0⟩)
    kMeansIter colors k maxIterations centroids

/-- The sort by descending vibrancy.  JS Array.prototype.sort is stable, so
with the consistent comparator vibrancyB - vibrancyA it computes exactly
the stable descending sort. -/
def sortByVibrancyDesc (palette : List Color) : List Color :=
  palette.mergeSort (fun a b => decide (calculateVibrancy b ≤ calculateVibrancy a))

/-- The fixed fallback palette (purple dominant, purple/pink/cyan). -/
def fallbackExtracted : Extracted :=
  { dominant := ⟨139, 92, 246⟩,
    palette := [⟨139, 92, 246⟩, ⟨236, 72, 153⟩, ⟨6, 182, 212⟩] }

/-- extractColors: resolve the fallback on load failure (onerror) and on
zero surviving vibrant pixels; reject with the thrown error on any
exception inside the onload handler; otherwise cluster the vibrant pixels
and return them sorted by descending vibrancy with the top one dominant. -/
def extractColors (img : ImageLoad) (colorCount : Nat) : Except String Extracted :=
  match img with
  | ImageLoad.loadError => Except.ok fallbackExtracted
  | ImageLoad.loaded (Except.error e) => Except.error e
  | ImageLoad.loaded (Except.ok pixels) =>
    let colors := (pixels.filter isVibrantPixel).map (fun p => (⟨p.r, p.g, p.b⟩ : Color))
    if colors.length = 0 then Except.ok fallbackExtracted
    else
      let palette := kMeansClustering colors (min colorCount colors.length) 10
      let sorted := sortByVibrancyDesc palette
      Except.ok { dominant := sorted.headD ⟨0, 0, 0⟩, palette := sorted }

/-! ### Theme Engine (src/shared/lib/theme-engine.js)

GENRE_THEMES is a module-level object with exactly seven entries, modelled
as a seven-field structure (the engine state carries it because the object
is reachable, via the JS reference `let colors = genreTheme.baseColors`,
from a mutating assignment inside generateThemeFromTrack).  JS reference
semantics are made explicit: the extraction step reports whether `colors`
still aliases the table entry, and the override assignment then writes
through the alias. -/

structure GenreColors where
  primary : Color
  secondary : Color
  accent : Color
deriving DecidableEq, Repr

structure GenreEffects where
  glowIntensity : String
  animationSpeed : String
  blurStrength : String
deriving DecidableEq, Repr

structure GenreTheme where
  name : String
  baseColors : GenreColors
  effects : GenreEffects
deriving DecidableEq, Repr

structure GenreTable where
  trance : GenreTheme
  hardcore : GenreTheme
  hardstyle : GenreTheme
  techno : GenreTheme
  house : GenreTheme
  dnb : GenreTheme
  dflt : GenreTheme
deriving DecidableEq, Repr

/-- Property read GENRE_THEMES[key] (the seventh key is the literal string
default, held in the field dflt). -/
def GenreTable.get (t : GenreTable) (key : String) : Option GenreTheme :=
  if key = "trance" then some t.trance
  else if key = "hardcore" then some t.hardcore
  else if key = "hardstyle" then some t.hardstyle
  else if key = "techno" then some t.techno
  else if key = "house" then some t.house
  else if key = "dnb" then some t.dnb
  else if key = "default" then some t.dflt
  else none

/-- Write GENRE_THEMES[key].baseColors.primary (the effect of the aliased
assignment colors.primary = hl when colors is the table entry). -/
def GenreTable.setPrimary (t : GenreTable) (key : String) (c : Color) : GenreTable :=
  if key = "trance" then { t with trance := { t.trance with baseColors := { t.trance.baseColors with primary := c } } }
  else if key = "hardcore" then { t with hardcore := { t.hardcore with baseColors := { t.hardcore.baseColors with primary := c } } }
  else if key = "hardstyle" then { t with hardstyle := { t.hardstyle with baseColors := { t.hardstyle.baseColors with primary := c } } }
  else if key = "techno" then { t with techno := { t.techno with baseColors := { t.techno.baseColors with primary := c } } }
  else if key = "house" then { t with house := { t.house with baseColors := { t.house.baseColors with primary := c } } }
  else if key = "dnb" then { t with dnb := { t.dnb with baseColors := { t.dnb.baseColors with primary := c } } }
  else if key = "default" then { t with dflt := { t.dflt with baseColors := { t.dflt.baseColors with primary := c } } }
  else t

/-- The literal GENRE_THEMES table. -/
def initialGenreThemes : GenreTable :=
  { trance := { name := "Ethereal Trance",
                baseColors := ⟨⟨139, 92, 246⟩, ⟨236, 72, 153⟩, ⟨6, 182, 212⟩⟩,
                effects := ⟨"30px", "2s", "12px"⟩ },
    hardcore := { name := "Hardcore Energy",
                  baseColors := ⟨⟨239, 68, 68⟩, ⟨249, 115, 22⟩, ⟨251, 191, 36⟩⟩,
                  effects := ⟨"35px", "0.5s", "8px"⟩ },
    hardstyle := { name := "Hardstyle Power",
                   baseColors := ⟨⟨239, 68, 68⟩, ⟨249, 115, 22⟩, ⟨251, 191, 36⟩⟩,
                   effects := ⟨"32px", "0.6s", "10px"⟩ },
    techno := { name := "Techno Minimal",
                baseColors := ⟨⟨59, 130, 246⟩, ⟨139, 92, 246⟩, ⟨236, 72, 153⟩⟩,
                effects := ⟨"20px", "1.2s", "10px"⟩ },
    house := { name := "House Groove",
               baseColors := ⟨⟨16, 185, 129⟩, ⟨6, 182, 212⟩, ⟨139, 92, 246⟩⟩,
               effects := ⟨"22px", "1.5s", "10px"⟩ },
    dnb := { name := "Drum & Bass",
             baseColors := ⟨⟨236, 72, 153⟩, ⟨6, 182, 212⟩, ⟨251, 191, 36⟩⟩,
             effects := ⟨"25px", "0.8s", "10px"⟩ },
    dflt := { name := "Default",
              baseColors := ⟨⟨139, 92, 246⟩, ⟨236, 72, 153⟩, ⟨6, 182, 212⟩⟩,
              effects := ⟨"20px", "1s", "10px"⟩ } }

/-- The GENRE_MAP object as its ordered key/value entries (object literal
string keys iterate in insertion order). -/
def GENRE_MAP : List (String × String) :=
  [("trance", "trance"), ("progressive trance", "trance"), ("uplifting trance", "trance"),
   ("vocal trance", "trance"), ("psytrance", "trance"), ("psy trance", "trance"),
   ("hardcore", "hardcore"), ("frenchcore", "hardcore"), ("speedcore", "hardcore"),
   ("uptempo hardcore", "hardcore"), ("gabber", "hardcore"), ("industrial hardcore", "hardcore"),
   ("hardstyle", "hardstyle"), ("rawstyle", "hardstyle"), ("euphoric hardstyle", "hardstyle"),
   ("techno", "techno"), ("minimal techno", "techno"), ("acid techno", "techno"),
   ("detroit techno", "techno"),
   ("house", "house"), ("tech house", "house"), ("deep house", "house"),
   ("progressive house", "house"), ("electro house", "house"),
   ("drum and bass", "dnb"), ("dnb", "dnb"), ("jungle", "dnb"),
   ("neurofunk", "dnb"), ("liquid dnb", "dnb")]

/-- JS String.prototype.includes: substring containment. -/
def jsIncludes (s sub : String) : Bool :=
  decide (List.IsInfix sub.data s.data)

/-- One loop body of detectGenreTheme: exact property lookup first, then
the first entry (in insertion order) related to the normalized tag by a
bidirectional substring match. -/
def detectGenreOne (normalized : String) : Option String :=
  match (GENRE_MAP.find? (fun p => p.1 == normalized)).map Prod.snd with
  | some v => some v
  | none =>
    (GENRE_MAP.find? (fun p => jsIncludes normalized p.1 || jsIncludes p.1 normalized)).map
      Prod.snd

/-- JS String.prototype.toLowerCase, modelled character-wise (on the ASCII
genre tags involved Char.toLower agrees with JS). -/
def jsToLowerCase (s : String) : String :=
  String.mk (s.data.map Char.toLower)

/-- JS String.prototype.trim: strip leading and trailing whitespace. -/
def jsTrim (s : String) : String :=
  String.mk (((s.data.dropWhile Char.isWhitespace).reverse.dropWhile Char.isWhitespace).reverse)

/-- ThemeEngine.detectGenreTheme: first tag with any match wins; no tag (or
an empty list, which also covers the falsy-argument guard) yields default. -/
def detectGenreTheme (genres : List String) : String :=
  match genres.findSome? (fun genre => detectGenreOne (jsTrim (jsToLowerCase genre))) with
  | some v => v
  | none => "default"

structure TrackInfo where
  albumArt : Option String
deriving DecidableEq, Repr

structure TrackFeatures where
  bpm : Option Rat
  energy : Option Rat
  valence : Option Rat
  danceability : Option Rat
deriving DecidableEq, Repr

structure TrackData where
  track : Option TrackInfo
  genres : Option (List String)
  features : Option TrackFeatures
deriving DecidableEq, Repr

structure LightState where
  rgb_color : Option (Nat × Nat × Nat)
deriving DecidableEq, Repr

structure ThemeColors where
  primary : String
  secondary : String
  accent : String
  background : String
  text : String
  textSecondary : String
deriving DecidableEq, Repr

structure ThemeEffects where
  glowIntensity : String
  animationSpeed : String
  blurStrength : String
  beatDuration : String
deriving DecidableEq, Repr

structure Theme where
  source : String
  genre : String
  genreName : String
  colors : ThemeColors
  effects : ThemeEffects
  audioFeatures : AudioFeatures
  bpm : Rat
  intensityClass : String
  timestamp : Nat
deriving DecidableEq, Repr

structure EngineState where
  genreThemes : GenreTable
  currentTheme : Option Theme
  syncWithHA : Bool
  albumArtColors : Option Extracted
  haLightColors : Option Color
  beat : BeatState
  currentBPM : Option Rat
  audioFeatures : Option AudioFeatures
deriving DecidableEq, Repr

/-- State of a freshly constructed ThemeEngine. -/
def ThemeEngine.init : EngineState :=
  { genreThemes := initialGenreThemes, currentTheme := none, syncWithHA := false,
    albumArtColors := none, haLightColors := none, beat := BeatEngine.init,
    currentBPM := none, audioFeatures := none }

/-- rgbToString from color-extractor.js. -/
def rgbToString (c : Color) : String :=
  "rgb(" ++ Nat.repr c.r ++ ", " ++ Nat.repr c.g ++ ", " ++ Nat.repr c.b ++ ")"

/-- JS x || d for a nullable number: the default replaces both an absent
and a zero (falsy) value. -/
def jsOrQ (x : Option Rat) (d : Rat) : Rat :=
  match x with
  | none => d
  | some q => if q = 0 then d else q

/-- JS Math.round on an exact rational: floor of q + 1/2. -/
def jsMathRound (q : Rat) : Int :=
  Int.floor (q + 1 / 2)

/-- JS truthiness of a nullable string (absent or empty is falsy). -/
def jsTruthyStr (x : Option String) : Bool :=
  match x with
  | none => false
  | some s => s ≠ ""

/-- The genre resolution GENRE_THEMES[genreKey] || GENRE_THEMES.default,
returning both the entry and the key it aliases (needed because a later
assignment may write through the alias). -/
def resolveGenre (table : GenreTable) (genreKey : String) : String × GenreTheme :=
  match table.get genreKey with
  | some g => (genreKey, g)
  | none => ("default", table.dflt)

/-- The album-art block of generateThemeFromTrack: on a truthy albumArt,
await extractColors; on success replace colors by a fresh object (primary
and secondary from the extraction, accent kept from the genre) and store
the extraction; on a caught rejection, or without album art, colors keeps
aliasing the baseColors object of the genre (the Bool reports that alias).  The
ImageLoad argument is the image environment the extraction runs against. -/
def resolveColors (baseColors : GenreColors) (prevAlbum : Option Extracted)
    (albumArt : Option String) (env : ImageLoad) :
    GenreColors × Bool × Option Extracted :=
  if jsTruthyStr albumArt then
    match extractColors env 5 with
    | Except.ok extracted =>
      ({ primary := extracted.dominant,
         secondary := extracted.palette.getD 1 extracted.dominant,
         accent := baseColors.accent }, false, some extracted)
    | Except.error _ => (baseColors, true, prevAlbum)
  else (baseColors, true, prevAlbum)

/-- ThemeEngine.generateThemeFromTrack.  `now` is the Date.now() value at
theme assembly (also handed to the beat engine for its immediate tick);
`env` is the image environment seen by a color extraction, if one runs.
Returns the updated engine state and the theme (none on the missing-track
guard). -/
def generateThemeFromTrack (st : EngineState) (trackData : Option TrackData)
    (env : ImageLoad) (now : Nat) : EngineState × Option Theme :=
  match trackData with
  | none => (st, none)
  | some td =>
    match td.track with
    | none => (st, none)
    | some track =>
      let genreKey := detectGenreTheme (td.genres.getD [])
      let resolved := resolveGenre st.genreThemes genreKey
      let aliasKey := resolved.1
      let genreTheme := resolved.2
      let step := resolveColors genreTheme.baseColors st.albumArtColors track.albumArt env
      let colors := step.1
      let aliased := step.2.1
      let albumArtColors1 := step.2.2
      let overrideColor : Option Color :=
        if st.syncWithHA then st.haLightColors else none
      let colors2 :=
        match overrideColor with
        | some hl => { colors with primary := hl }
        | none => colors
      let table2 :=
        match overrideColor with
        | some hl => if aliased then st.genreThemes.setPrimary aliasKey hl else st.genreThemes
        | none => st.genreThemes
      let bpm := jsOrQ (td.features.bind TrackFeatures.bpm) 120
      let audioFeatures : AudioFeatures :=
        { energy := jsOrQ (td.features.bind TrackFeatures.energy) (1 / 2),
          valence := jsOrQ (td.features.bind TrackFeatures.valence) (1 / 2),
          danceability := jsOrQ (td.features.bind TrackFeatures.danceability) (1 / 2) }
      let beat1 := if bpm ≠ 0 ∧ 0 < bpm then setBPM st.beat (some bpm) audioFeatures now else st.beat
      let beatDuration :=
        if bpm ≠ 0 then (jsMathRound (60000 / bpm)).repr ++ "ms" else "1000ms"
      let intensityClass :=
        if audioFeatures.energy < 2 / 5 then "low"
        else if 7 / 10 < audioFeatures.energy then "high" else "medium"
      let theme : Theme :=
        { source := match overrideColor with
            | some _ => "homeassistant"
            | none => "spotify",
          genre := genreKey,
          genreName := genreTheme.name,
          colors := { primary := rgbToString colors2.primary,
                      secondary := rgbToString colors2.secondary,
                      accent := rgbToString colors2.accent,
                      background := "rgba(0, 0, 0, 0.7)",
                      text := "#ffffff",
                      textSecondary := "rgba(255, 255, 255, 0.7)" },
          effects := { glowIntensity := genreTheme.effects.glowIntensity,
                       animationSpeed := genreTheme.effects.animationSpeed,
                       blurStrength := genreTheme.effects.blurStrength,
                       beatDuration := beatDuration },
          audioFeatures := audioFeatures,
          bpm := bpm,
          intensityClass := intensityClass,
          timestamp := now }
      ({ st with genreThemes := table2, currentTheme := some theme,
                 albumArtColors := albumArtColors1, beat := beat1,
                 currentBPM := some bpm, audioFeatures := some audioFeatures },
       some theme)

/-- ThemeEngine.updateFromHomeAssistant: a missing light state or missing
rgb_color attribute clears the stored override and falls off the guard
(returning JS undefined, modelled as none); otherwise the override is
stored and the method returns true exactly when a current theme exists. -/
def updateFromHomeAssistant (st : EngineState) (lightState : Option LightState) :
    EngineState × Option Bool :=
  match lightState with
  | none => ({ st with haLightColors := none }, none)
  | some ls =>
    match ls.rgb_color with
    | none => ({ st with haLightColors := none }, none)
    | some (r, g, b) =>
      let st1 : EngineState := { st with haLightColors := some ⟨r, g, b⟩ }
      if st1.currentTheme.isSome then (st1, some true) else (st1, some false)

/-- ThemeEngine.setSyncWithHomeAssistant. -/
def setSyncWithHomeAssistant (st : EngineState) (enabled : Bool) : EngineState :=
  { st with syncWithHA := enabled }

/-! ### Claims about the Event Bus -/

lemma setAdd_mem (l : List Nat) (h : Nat) : h ∈ setAdd l h := by
  by_cases hm : h ∈ l <;> simp [setAdd, hm]

lemma setAdd_idem (l : List Nat) (h : Nat) : setAdd (setAdd l h) h = setAdd l h := by
  have hm := setAdd_mem l h
  show (if h ∈ setAdd l h then setAdd l h else setAdd l h ++ [h]) = setAdd l h
  rw [if_pos hm]

lemma onOne_idem (st : BusState) (t : String) (h : Nat) :
    onOne t h (onOne t h st) = onOne t h st := by
  simp [onOne, Function.update_same, setAdd_idem, Function.update_idem]

lemma onOne_history (st : BusState) (t : String) (h : Nat) :
    (onOne t h st).history = st.history := rfl

/-- C1: delivery is deduplicated on the (type, timestamp) pair.  Two
messages of the same type handled back to back within the dedup window (no
expiry between them): a handler subscribed once to that type (and not a
wildcard subscriber) is invoked exactly once in total when the timestamps
coincide, and exactly once per message when the timestamps differ. -/
theorem C1_dedup_on_type_timestamp (st : BusState) (m1 m2 : Message) (h : Nat)
    (htype : m2.type = m1.type) (hne : m1.type ≠ "")
    (hsub : (st.listeners m1.type).count h = 1) (hnw : h ∉ st.listeners "*")
    (hfresh1 : messageKey m1 ∉ st.history) :
    (m1.timestamp = m2.timestamp →
      (handleMessage st (some m1)).2.count h +
        (handleMessage (handleMessage st (some m1)).1 (some m2)).2.count h = 1) ∧
    (m1.timestamp ≠ m2.timestamp → messageKey m2 ∉ st.history →
      (handleMessage st (some m1)).2.count h = 1 ∧
        (handleMessage (handleMessage st (some m1)).1 (some m2)).2.count h = 1) := by
  have h1 := handleMessage_fresh st m1 hne hfresh1
  have hcount1 : (handleMessage st (some m1)).2.count h = 1 := by
    rw [h1]
    simp [List.count_append, hsub, List.count_eq_zero.mpr hnw]
  have hne2 : m2.type ≠ "" := by rw [htype]; exact hne
  constructor
  · intro hts
    have hkey : messageKey m2 = messageKey m1 := by
      simp [messageKey, htype, hts]
    have hdup : messageKey m2 ∈ (handleMessage st (some m1)).1.history := by
      rw [h1, hkey]; exact List.mem_cons_self _ _
    rw [handleMessage_dup _ m2 hne2 hdup]
    simpa using hcount1
  · intro hts hfresh2
    refine ⟨hcount1, ?_⟩
    have hkeyne : messageKey m2 ≠ messageKey m1 := by
      intro hk
      exact hts (messageKey_inj_timestamp htype hk).symm
    have hfresh2' : messageKey m2 ∉ (handleMessage st (some m1)).1.history := by
      rw [h1]
      simp only [List.mem_cons, not_or]
      exact ⟨hkeyne, hfresh2⟩
    rw [handleMessage_fresh _ m2 hne2 hfresh2']
    have hlist : (handleMessage st (some m1)).1.listeners = st.listeners := by rw [h1]
    rw [hlist]
    simp [List.count_append, htype, hsub, List.count_eq_zero.mpr hnw]

/-- C1 witness: a concrete bus with one subscriber to spotify:track; two
messages with equal (type, timestamp) yield one invocation in total. -/
theorem C1_dedup_on_type_timestamp_witness :
    ((⟨[], fun t => if t = "spotify:track" then [7] else []⟩ : BusState).listeners
        "spotify:track").count 7 = 1 ∧
    (handleMessage (⟨[], fun t => if t = "spotify:track" then [7] else []⟩ : BusState)
          (some ⟨"spotify:track", 100, 0⟩)).2.count 7 +
      (handleMessage
          (handleMessage (⟨[], fun t => if t = "spotify:track" then [7] else []⟩ : BusState)
            (some ⟨"spotify:track", 100, 0⟩)).1
          (some ⟨"spotify:track", 100, 1⟩)).2.count 7 = 1 :=
  ⟨by decide,
    (C1_dedup_on_type_timestamp
      (⟨[], fun t => if t = "spotify:track" then [7] else []⟩ : BusState)
      ⟨"spotify:track", 100, 0⟩ ⟨"spotify:track", 100, 1⟩ 7
      rfl (by decide) (by decide) (by decide) (by decide)).1 rfl⟩

/-- C10: registering the same handler for the same type repeatedly is
idempotent on the listener registry (a JS Set ignores re-insertion), so a
delivered message of that type invokes it exactly once however many times
it was registered. -/
theorem C10_on_idempotent (st : BusState) (t : String) (h : Nat) (m : Message) (n : Nat)
    (htype : m.type = t) (hne : t ≠ "") (hwild : t ≠ "*")
    (hnot : h ∉ st.listeners t) (hnw : h ∉ st.listeners "*")
    (hfresh : messageKey m ∉ st.history) :
    onOne t h (onOne t h st) = onOne t h st ∧
    (fun s => onOne t h s)^[n + 1] st = onOne t h st ∧
    (handleMessage (onOne t h (onOne t h st)) (some m)).2.count h = 1 := by
  have hidem := onOne_idem st t h
  have hiter : (fun s => onOne t h s)^[n + 1] st = onOne t h st := by
    induction n with
    | zero => simp
    | succ n ih =>
      rw [Function.iterate_succ_apply', ih]
      exact hidem
  refine ⟨hidem, hiter, ?_⟩
  rw [hidem]
  have hlist_t : (onOne t h st).listeners t = st.listeners t ++ [h] := by
    simp [onOne, Function.update_same, setAdd, hnot]
  have hlist_w : (onOne t h st).listeners "*" = st.listeners "*" := by
    simp only [onOne]
    exact Function.update_noteq (Ne.symm hwild) _ _
  have hfresh' : messageKey m ∉ (onOne t h st).history := by
    rw [onOne_history]; exact hfresh
  have hne' : m.type ≠ "" := by rw [htype]; exact hne
  rw [handleMessage_fresh _ m hne' hfresh', htype, hlist_t, hlist_w]
  simp [List.count_append, List.count_eq_zero.mpr hnot, List.count_eq_zero.mpr hnw]

/-- C10 witness: registering handler 7 twice on a fresh bus and delivering
one message invokes it exactly once. -/
theorem C10_on_idempotent_witness :
    7 ∉ (⟨[], fun _ => []⟩ : BusState).listeners "spotify:track" ∧
    (handleMessage
        (onOne "spotify:track" 7 (onOne "spotify:track" 7 (⟨[], fun _ => []⟩ : BusState)))
        (some ⟨"spotify:track", 100, 0⟩)).2.count 7 = 1 :=
  ⟨by decide,
    (C10_on_idempotent (⟨[], fun _ => []⟩ : BusState) "spotify:track" 7
      ⟨"spotify:track", 100, 0⟩ 0 rfl (by decide) (by decide) (by decide) (by decide)
      (by decide)).2.2⟩

/-! ### Claims about the Beat Engine -/

/-- C5: every falsy, non-positive or greater-than-300 BPM argument (0 and
400 in particular) is coerced: the effective BPM becomes 120 and the beat
interval exactly 500 ms; setBPM is total, so the call is never rejected. -/
theorem C5_bpm_coercion (st : BeatState) (bpm : Option Rat) (f : AudioFeatures) (now : Nat)
    (hbad : invalidBPM bpm) :
    (setBPM st bpm f now).bpm = some 120 ∧
    (setBPM st bpm f now).beatInterval = some 500 := by
  have hco : coerceBPM bpm = 120 := by
    rcases hbad with hnone | ⟨x, hx, hrange⟩
    · rw [hnone]; rfl
    · rw [hx]
      simp only [coerceBPM]
      rw [if_pos]
      rcases hrange with hle | hgt
      · exact Or.inr (Or.inl hle)
      · exact Or.inr (Or.inr hgt)
  rw [setBPM_unfold]
  refine ⟨by simp [hco], ?_⟩
  show some (60000 / coerceBPM bpm) = some 500
  rw [hco]
  norm_num

/-- C5 witness: setBPM(0) and setBPM(400) both give BPM 120 and interval
exactly 500 ms. -/
theorem C5_bpm_coercion_witness :
    invalidBPM (some 0) ∧ invalidBPM (some 400) ∧
    (setBPM BeatEngine.init (some 0) ⟨1 / 2, 1 / 2, 1 / 2⟩ 0).bpm = some 120 ∧
    (setBPM BeatEngine.init (some 0) ⟨1 / 2, 1 / 2, 1 / 2⟩ 0).beatInterval = some 500 ∧
    (setBPM BeatEngine.init (some 400) ⟨1 / 2, 1 / 2, 1 / 2⟩ 0).bpm = some 120 ∧
    (setBPM BeatEngine.init (some 400) ⟨1 / 2, 1 / 2, 1 / 2⟩ 0).beatInterval = some 500 := by
  have h0 : invalidBPM (some 0) := Or.inr ⟨0, rfl, Or.inl le_rfl⟩
  have h400 : invalidBPM (some 400) := Or.inr ⟨400, rfl, Or.inr (by norm_num)⟩
  exact ⟨h0, h400,
    (C5_bpm_coercion BeatEngine.init (some 0) ⟨1 / 2, 1 / 2, 1 / 2⟩ 0 h0).1,
    (C5_bpm_coercion BeatEngine.init (some 0) ⟨1 / 2, 1 / 2, 1 / 2⟩ 0 h0).2,
    (C5_bpm_coercion BeatEngine.init (some 400) ⟨1 / 2, 1 / 2, 1 / 2⟩ 0 h400).1,
    (C5_bpm_coercion BeatEngine.init (some 400) ⟨1 / 2, 1 / 2, 1 / 2⟩ 0 h400).2⟩

/-- C6 counterexample: a concrete setBPM call on a fresh engine.  The
immediately emitted BeatTick carries beatCount 1, not 0 (emitBeat
pre-increments the counter), and the post-call counter is 1. -/
theorem C6_counterexample :
    ((setBPM BeatEngine.init (some 140) ⟨1 / 2, 1 / 2, 1 / 2⟩ 0).emitted.map
        Tick.beatCount) = [1] ∧
    (setBPM BeatEngine.init (some 140) ⟨1 / 2, 1 / 2, 1 / 2⟩ 0).beatCount = 1 ∧
    ([1] : List Nat) ≠ [0] := by
  rw [setBPM_unfold]
  exact ⟨rfl, rfl, by decide⟩

/-- C6 amended: every call to setBPM enters the Running state (the counter
is reset to 0 by startBeat) and immediately emits exactly one BeatTick,
whose beatCount field is 1 because emitBeat increments before emitting;
after the call the counter stands at 1. -/
theorem C6_amended (st : BeatState) (bpm : Option Rat) (f : AudioFeatures) (now : Nat) :
    (setBPM st bpm f now).isRunning = true ∧
    (setBPM st bpm f now).beatCount = 1 ∧
    (setBPM st bpm f now).emitted =
      st.emitted ++ [{ beatCount := 1, bpm := some (coerceBPM bpm),
                       beatInterval := some (60000 / coerceBPM bpm), timestamp := now }] := by
  rw [setBPM_unfold]
  exact ⟨rfl, rfl, rfl⟩

/-! ### Claims about the Color Extractor -/

/-- C4 counterexample: an exception inside the onload handler (here a
failing canvas pixel read) rejects with that error instead of resolving to
the fallback palette. -/
theorem C4_counterexample :
    extractColors (ImageLoad.loaded (Except.error "canvas read failed")) 5 =
      Except.error "canvas read failed" ∧
    extractColors (ImageLoad.loaded (Except.error "canvas read failed")) 5 ≠
      Except.ok fallbackExtracted := by
  exact ⟨rfl, by simp [extractColors]⟩

/-- C4 amended: extractColors resolves to the fixed fallback palette on
image load failure and on zero surviving vibrant pixels, but an exception
thrown while processing rejects with that error (the caller catches it). -/
theorem C4_amended (k : Nat) (pixels : List Pixel) (err : String)
    (hzero : pixels.filter isVibrantPixel = []) :
    extractColors ImageLoad.loadError k = Except.ok fallbackExtracted ∧
    extractColors (ImageLoad.loaded (Except.ok pixels)) k = Except.ok fallbackExtracted ∧
    extractColors (ImageLoad.loaded (Except.error err)) k = Except.error err := by
  refine ⟨rfl, ?_, rfl⟩
  simp [extractColors, hzero]

lemma isVibrant_black : isVibrantPixel ⟨0, 0, 0, 255⟩ = false := by
  simp only [isVibrantPixel]
  norm_num

lemma filter_black : ([(⟨0, 0, 0, 255⟩ : Pixel)].filter isVibrantPixel = []) := by
  simp [List.filter, isVibrant_black]

/-- C4 witness: a single pure-black pixel is filtered out (zero surviving
vibrant pixels), so the extraction resolves with the fallback palette. -/
theorem C4_amended_witness :
    ([(⟨0, 0, 0, 255⟩ : Pixel)].filter isVibrantPixel = []) ∧
    extractColors (ImageLoad.loaded (Except.ok [⟨0, 0, 0, 255⟩])) 5 =
      Except.ok fallbackExtracted :=
  ⟨filter_black, (C4_amended 5 [⟨0, 0, 0, 255⟩] "e" filter_black).2.1⟩

/-- C7 counterexample: the input [black, black, (9,0,0)] has 2 distinct
colors and k = 2, yet clustering returns [(3,0,0), (0,0,0)], which contains
the iterated centroid (3,0,0) that is not among the input colors: the
direct-return guard compares k against the list length (3), not against the
number of distinct colors. -/
theorem C7_counterexample :
    ([⟨0, 0, 0⟩, ⟨0, 0, 0⟩, ⟨9, 0, 0⟩] : List Color).dedup.length = 2 ∧
    kMeansClustering [⟨0, 0, 0⟩, ⟨0, 0, 0⟩, ⟨9, 0, 0⟩] 2 10 = [⟨3, 0, 0⟩, ⟨0, 0, 0⟩] ∧
    (⟨3, 0, 0⟩ : Color) ∉ ([⟨0, 0, 0⟩, ⟨0, 0, 0⟩, ⟨9, 0, 0⟩] : List Color) := by
  refine ⟨by decide, by decide, by decide⟩

/-- C7 amended: for every non-empty list of surviving pixel colors and
every k at least the length of the list (colors counted with multiplicity),
the clustering step returns the input list itself, not iterated
centroids. -/
theorem C7_amended (colors : List Color) (k maxIterations : Nat)
    (_hne : colors ≠ []) (hk : colors.length ≤ k) :
    kMeansClustering colors k maxIterations = colors := by
  simp [kMeansClustering, hk]

/-- C7 witness: a one-element list with k = 5 is returned unchanged. -/
theorem C7_amended_witness :
    ([(⟨1, 2, 3⟩ : Color)] ≠ []) ∧ ([(⟨1, 2, 3⟩ : Color)].length ≤ 5) ∧
    kMeansClustering [⟨1, 2, 3⟩] 5 10 = [⟨1, 2, 3⟩] :=
  ⟨by decide, by decide, C7_amended [⟨1, 2, 3⟩] 5 10 (by decide) (by decide)⟩

/-! ### Claims about the Theme Engine -/

/-- C2: with HA sync enabled and an override color stored, the primary
color of the produced theme is that override (rendered by rgbToString), while
secondary and accent are exactly what the same call produces with no
stored override. -/
theorem C2_override_primary (st : EngineState) (td : TrackData) (track : TrackInfo)
    (env : ImageLoad) (now : Nat) (c : Color)
    (htrack : td.track = some track) (hsync : st.syncWithHA = true)
    (hover : st.haLightColors = some c) :
    ((generateThemeFromTrack st (some td) env now).2.map (fun th => th.colors.primary))
      = some (rgbToString c) ∧
    ((generateThemeFromTrack st (some td) env now).2.map (fun th => th.colors.secondary))
      = ((generateThemeFromTrack { st with haLightColors := none } (some td) env now).2.map
          (fun th => th.colors.secondary)) ∧
    ((generateThemeFromTrack st (some td) env now).2.map (fun th => th.colors.accent))
      = ((generateThemeFromTrack { st with haLightColors := none } (some td) env now).2.map
          (fun th => th.colors.accent)) := by
  simp only [generateThemeFromTrack, htrack, hsync, hover]
  exact ⟨rfl, rfl, rfl⟩

/-- C2 witness: override (10,20,30) over the trance genre with no album
art. -/
theorem C2_override_primary_witness :
    ((generateThemeFromTrack
        { ThemeEngine.init with syncWithHA := true, haLightColors := some ⟨10, 20, 30⟩ }
        (some { track := some { albumArt := none }, genres := some ["trance"],
                features := none })
        ImageLoad.loadError 0).2.map (fun th => th.colors.primary))
      = some (rgbToString ⟨10, 20, 30⟩) :=
  (C2_override_primary
    { ThemeEngine.init with syncWithHA := true, haLightColors := some ⟨10, 20, 30⟩ }
    { track := some { albumArt := none }, genres := some ["trance"], features := none }
    { albumArt := none } ImageLoad.loadError 0 ⟨10, 20, 30⟩ rfl rfl rfl).1

/-- C3: evaluation of generateThemeFromTrack at the failing input (HA sync
enabled, stored override (10,20,30), a track without album art, genre
trance): the call overwrites the primary base color of the trance entry of
GENRE_THEMES through the aliased colors object, so the table is not
read-only reference data. -/
theorem C3_genre_table_mutated :
    (generateThemeFromTrack
        { ThemeEngine.init with syncWithHA := true, haLightColors := some ⟨10, 20, 30⟩ }
        (some { track := some { albumArt := none }, genres := some ["trance"],
                features := none })
        ImageLoad.loadError 5).1.genreThemes.trance.baseColors.primary = ⟨10, 20, 30⟩ ∧
    initialGenreThemes.trance.baseColors.primary = ⟨139, 92, 246⟩ ∧
    (⟨10, 20, 30⟩ : Color) ≠ ⟨139, 92, 246⟩ :=
  ⟨rfl, rfl, by decide⟩

lemma generateTheme_features (st : EngineState) (td : TrackData) (track : TrackInfo)
    (fs : TrackFeatures) (env : ImageLoad) (now : Nat)
    (htrack : td.track = some track) (hfs : td.features = some fs) :
    (generateThemeFromTrack st (some td) env now).2.map Theme.audioFeatures
      = some { energy := jsOrQ fs.energy (1 / 2), valence := jsOrQ fs.valence (1 / 2),
               danceability := jsOrQ fs.danceability (1 / 2) } := by
  simp only [generateThemeFromTrack, htrack, hfs]
  rfl

/-- C8 counterexample: an energy supplied as 0 is present in the input, yet
the produced theme reports the default 0.5 (the JS || default replaces the
falsy 0), contradicting "equals the supplied value when present". -/
theorem C8_counterexample :
    ((generateThemeFromTrack ThemeEngine.init
        (some { track := some { albumArt := none }, genres := none,
                features := some { bpm := none, energy := some 0, valence := none,
                                   danceability := none } })
        ImageLoad.loadError 0).2.map (fun th => th.audioFeatures.energy)) = some (1 / 2) ∧
    some ((1 : Rat) / 2) ≠ some (0 : Rat) :=
  ⟨rfl, by norm_num⟩

/-- C8 amended: each of energy, valence, danceability in the produced theme
equals the supplied value when that field is present with a nonzero value,
and equals the default 0.5 when the field is absent or supplied as 0 (JS ||
treats the falsy 0 like an absent field). -/
theorem C8_amended (st : EngineState) (td : TrackData) (track : TrackInfo)
    (fs : TrackFeatures) (env : ImageLoad) (now : Nat) (e v d : Rat)
    (htrack : td.track = some track) (hfs : td.features = some fs) :
    ((fs.energy = some e ∧ e ≠ 0) →
      ((generateThemeFromTrack st (some td) env now).2.map
        (fun th => th.audioFeatures.energy)) = some e) ∧
    ((fs.energy = none ∨ fs.energy = some 0) →
      ((generateThemeFromTrack st (some td) env now).2.map
        (fun th => th.audioFeatures.energy)) = some (1 / 2)) ∧
    ((fs.valence = some v ∧ v ≠ 0) →
      ((generateThemeFromTrack st (some td) env now).2.map
        (fun th => th.audioFeatures.valence)) = some v) ∧
    ((fs.valence = none ∨ fs.valence = some 0) →
      ((generateThemeFromTrack st (some td) env now).2.map
        (fun th => th.audioFeatures.valence)) = some (1 / 2)) ∧
    ((fs.danceability = some d ∧ d ≠ 0) →
      ((generateThemeFromTrack st (some td) env now).2.map
        (fun th => th.audioFeatures.danceability)) = some d) ∧
    ((fs.danceability = none ∨ fs.danceability = some 0) →
      ((generateThemeFromTrack st (some td) env now).2.map
        (fun th => th.audioFeatures.danceability)) = some (1 / 2)) := by
  have key := generateTheme_features st td track fs env now htrack hfs
  have he : ((generateThemeFromTrack st (some td) env now).2.map
      (fun th => th.audioFeatures.energy)) = some (jsOrQ fs.energy (1 / 2)) := by
    rw [show (fun th : Theme => th.audioFeatures.energy)
          = (AudioFeatures.energy ∘ Theme.audioFeatures) from rfl,
        ← Option.map_map, key]
    rfl
  have hv : ((generateThemeFromTrack st (some td) env now).2.map
      (fun th => th.audioFeatures.valence)) = some (jsOrQ fs.valence (1 / 2)) := by
    rw [show (fun th : Theme => th.audioFeatures.valence)
          = (AudioFeatures.valence ∘ Theme.audioFeatures) from rfl,
        ← Option.map_map, key]
    rfl
  have hd : ((generateThemeFromTrack st (some td) env now).2.map
      (fun th => th.audioFeatures.danceability)) = some (jsOrQ fs.danceability (1 / 2)) := by
    rw [show (fun th : Theme => th.audioFeatures.danceability)
          = (AudioFeatures.danceability ∘ Theme.audioFeatures) from rfl,
        ← Option.map_map, key]
    rfl
  refine ⟨fun ⟨hp, hz⟩ => ?_, fun hab => ?_, fun ⟨hp, hz⟩ => ?_, fun hab => ?_,
          fun ⟨hp, hz⟩ => ?_, fun hab => ?_⟩
  · rw [he, hp]; simp [jsOrQ, hz]
  · rcases hab with hab | hab <;> rw [he, hab] <;> simp [jsOrQ]
  · rw [hv, hp]; simp [jsOrQ, hz]
  · rcases hab with hab | hab <;> rw [hv, hab] <;> simp [jsOrQ]
  · rw [hd, hp]; simp [jsOrQ, hz]
  · rcases hab with hab | hab <;> rw [hd, hab] <;> simp [jsOrQ]

/-- C8 witness: energy 9/10 passes through, a zero valence and an absent
danceability both default to 0.5. -/
theorem C8_amended_witness :
    ((generateThemeFromTrack ThemeEngine.init
        (some { track := some { albumArt := none }, genres := none,
                features := some { bpm := none, energy := some (9 / 10), valence := some 0,
                                   danceability := none } })
        ImageLoad.loadError 0).2.map (fun th => th.audioFeatures.energy)) = some (9 / 10) ∧
    ((generateThemeFromTrack ThemeEngine.init
        (some { track := some { albumArt := none }, genres := none,
                features := some { bpm := none, energy := some (9 / 10), valence := some 0,
                                   danceability := none } })
        ImageLoad.loadError 0).2.map (fun th => th.audioFeatures.valence)) = some (1 / 2) ∧
    ((generateThemeFromTrack ThemeEngine.init
        (some { track := some { albumArt := none }, genres := none,
                features := some { bpm := none, energy := some (9 / 10), valence := some 0,
                                   danceability := none } })
        ImageLoad.loadError 0).2.map (fun th => th.audioFeatures.danceability)) = some (1 / 2) := by
  have h := C8_amended ThemeEngine.init
    { track := some { albumArt := none }, genres := none,
      features := some { bpm := none, energy := some (9 / 10), valence := some 0,
                         danceability := none } }
    { albumArt := none }
    { bpm := none, energy := some (9 / 10), valence := some 0, danceability := none }
    ImageLoad.loadError 0 (9 / 10) 0 0 rfl rfl
  exact ⟨h.1 ⟨rfl, by norm_num⟩, h.2.2.2.1 (Or.inr rfl), h.2.2.2.2.2 (Or.inl rfl)⟩

/-- C9 counterexample: in the clearing case (absent color attribute) with a
current theme present, updateFromHomeAssistant falls off the guard and
returns undefined (no boolean), not true as the claim requires. -/
theorem C9_counterexample :
    ((updateFromHomeAssistant
        ((generateThemeFromTrack ThemeEngine.init
            (some { track := some { albumArt := none }, genres := none, features := none })
            ImageLoad.loadError 0).1)
        (some { rgb_color := none })).2 = none) ∧
    ((generateThemeFromTrack ThemeEngine.init
        (some { track := some { albumArt := none }, genres := none, features := none })
        ImageLoad.loadError 0).1.currentTheme.isSome = true) ∧
    ((none : Option Bool) ≠ some true) :=
  ⟨rfl, rfl, by simp⟩

/-- C9 amended: when the color attribute is present the method stores the
override and returns true exactly when a current theme exists (false
otherwise); when the light state or its color attribute is absent it clears
the override and returns undefined (no boolean), regardless of whether a
theme exists. -/
theorem C9_amended (st : EngineState) (ls : LightState) (r g b : Nat) :
    ((updateFromHomeAssistant st none).2 = none ∧
      (updateFromHomeAssistant st none).1.haLightColors = none) ∧
    (ls.rgb_color = none →
      (updateFromHomeAssistant st (some ls)).2 = none ∧
        (updateFromHomeAssistant st (some ls)).1.haLightColors = none) ∧
    (ls.rgb_color = some (r, g, b) →
      (updateFromHomeAssistant st (some ls)).2 = some st.currentTheme.isSome ∧
        (updateFromHomeAssistant st (some ls)).1.haLightColors = some ⟨r, g, b⟩) := by
  refine ⟨⟨rfl, rfl⟩, fun h => ?_, fun h => ?_⟩
  · simp [updateFromHomeAssistant, h]
  · simp only [updateFromHomeAssistant, h]
    by_cases hthm : st.currentTheme.isSome <;> simp [hthm]

/-- C9 witness: a present color attribute on a fresh engine (no theme yet)
returns false and stores the override. -/
theorem C9_amended_witness :
    ((⟨some (1, 2, 3)⟩ : LightState).rgb_color = some (1, 2, 3)) ∧
    (updateFromHomeAssistant ThemeEngine.init (some ⟨some (1, 2, 3)⟩)).2 = some false ∧
    (updateFromHomeAssistant ThemeEngine.init (some ⟨some (1, 2, 3)⟩)).1.haLightColors
      = some ⟨1, 2, 3⟩ := by
  have h := (C9_amended ThemeEngine.init ⟨some (1, 2, 3)⟩ 1 2 3).2.2 rfl
  exact ⟨rfl, h.1, h.2⟩

end RaveOverlay
